import Mathlib

/-!
Shallow embedding of the OOP/SOLID teaching corpus (TypeScript) and proofs of
the specified properties.  Each TypeScript class is embedded as a Lean
structure or inductive; mutating methods become explicit state-passing
functions; console output that never feeds back into state is modelled only
where a claim is about it (as an event trace); methods that may throw return
`Except String Unit`.
-/

namespace Encapsulation

/-- The three animal variants of `src/OOP/Encapsulation.ts` (`Dog`, `Whale`,
`Snake`).  They differ only in `animalName` and `call`; the flag logic lives
in the shared abstract `Animal` base. -/
inductive AnimalKind
  | dog
  | whale
  | snake
deriving DecidableEq

/-- `animalName` getter of each variant. -/
def animalName : AnimalKind → String
  | .dog => "Dog"
  | .whale => "Whale"
  | .snake => "Snake"

/-- `call` getter of each variant. -/
def call : AnimalKind → String
  | .dog => "barking"
  | .whale => "clicking"
  | .snake => "hissing"

/-- Mutable state of `Animal` in `Encapsulation.ts`: the three private
boolean activity fields. -/
structure AnimalState where
  isSleeping : Bool
  isPlaying : Bool
  isEating : Bool
deriving DecidableEq

/-- The `Animal` constructor: all three flags start `false`. -/
def initialAnimal : AnimalState :=
  { isEating := false, isPlaying := false, isSleeping := false }

/-- `set isSleeping(state)`: writes `state` to `_isSleeping` and `false` to
the other two fields.  The trailing `makeAnimalCall` only prints to the
console and changes no field, so it does not appear in the state transition. -/
def setIsSleeping (s : AnimalState) (state : Bool) : AnimalState :=
  { s with isSleeping := state, isEating := false, isPlaying := false }

/-- `set isEating(state)`: writes `false`, `state`, `false` to the three
fields. -/
def setIsEating (s : AnimalState) (state : Bool) : AnimalState :=
  { s with isSleeping := false, isEating := state, isPlaying := false }

/-- `set isPlaying(state)`: writes `false`, `false`, `state` to the three
fields. -/
def setIsPlaying (s : AnimalState) (state : Bool) : AnimalState :=
  { s with isSleeping := false, isEating := false, isPlaying := state }

/-- One setter invocation, as data: which setter and with which argument. -/
inductive SetterCall
  | sleeping (b : Bool)
  | eating (b : Bool)
  | playing (b : Bool)
deriving DecidableEq

/-- Apply one setter invocation to a state. -/
def applySetter (s : AnimalState) : SetterCall → AnimalState
  | .sleeping b => setIsSleeping s b
  | .eating b => setIsEating s b
  | .playing b => setIsPlaying s b

/-- Run a sequence of setter invocations, in order. -/
def runSetters (s : AnimalState) : List SetterCall → AnimalState
  | [] => s
  | c :: rest => runSetters (applySetter s c) rest

/-- At most one of the three activity flags is `true`. -/
def atMostOneActive (s : AnimalState) : Prop :=
  (cond s.isSleeping 1 0) + (cond s.isPlaying 1 0) + (cond s.isEating 1 0) ≤ 1

instance (s : AnimalState) : Decidable (atMostOneActive s) := by
  unfold atMostOneActive
  infer_instance

end Encapsulation

namespace Inheritance

/-- The three animal variants of `src/OOP/Inheritance.ts`. -/
inductive AnimalKind
  | dog
  | whale
  | snake
deriving DecidableEq

/-- `animalName` getter of each variant. -/
def animalName : AnimalKind → String
  | .dog => "Dog"
  | .whale => "Whale"
  | .snake => "Snake"

/-- `call` getter of each variant. -/
def call : AnimalKind → String
  | .dog => "barking"
  | .whale => "clicking"
  | .snake => "hissing"

/-- Combined mutable state of `Animal extends Auditable` in
`Inheritance.ts`: the two audit counters of `Auditable` plus the activity
flags and `_isAlive` of `Animal`.  The constant `_SUPER_SECRET_STRING` is
never read or written and is omitted. -/
structure AnimalState where
  numberOfTimesRead : Nat
  numberOfTimesWritten : Nat
  isSleeping : Bool
  isPlaying : Bool
  isEating : Bool
  isAlive : Bool
deriving DecidableEq

/-- `Auditable._incrementRead`. -/
def incrementRead (s : AnimalState) : AnimalState :=
  { s with numberOfTimesRead := s.numberOfTimesRead + 1 }

/-- `Auditable._incrementWrite`. -/
def incrementWrite (s : AnimalState) : AnimalState :=
  { s with numberOfTimesWritten := s.numberOfTimesWritten + 1 }

/-- The combined constructor (`Auditable` then `Animal`): counters `0`,
flags `false`, `_isAlive` `true`. -/
def initialAnimal : AnimalState :=
  { numberOfTimesRead := 0, numberOfTimesWritten := 0,
    isSleeping := false, isPlaying := false, isEating := false,
    isAlive := true }

/-- `get isSleeping`: increments the read counter and returns the flag. -/
def getIsSleeping (s : AnimalState) : Bool × AnimalState :=
  ((incrementRead s).isSleeping, incrementRead s)

/-- `get isPlaying`. -/
def getIsPlaying (s : AnimalState) : Bool × AnimalState :=
  ((incrementRead s).isPlaying, incrementRead s)

/-- `get isEating`. -/
def getIsEating (s : AnimalState) : Bool × AnimalState :=
  ((incrementRead s).isEating, incrementRead s)

/-- `get isAlive`. -/
def getIsAlive (s : AnimalState) : Bool × AnimalState :=
  ((incrementRead s).isAlive, incrementRead s)

/-- `Auditable.get numberOfTimesRead`: returns the counter, no increment. -/
def getNumberOfTimesRead (s : AnimalState) : Nat × AnimalState :=
  (s.numberOfTimesRead, s)

/-- `Auditable.get numberOfTimesWritten`: returns the counter, no
increment. -/
def getNumberOfTimesWritten (s : AnimalState) : Nat × AnimalState :=
  (s.numberOfTimesWritten, s)

/-- `set isSleeping(state)`: increments the write counter, then writes
`state`, `false`, `false` to the three flag fields. -/
def setIsSleeping (s : AnimalState) (state : Bool) : AnimalState :=
  { incrementWrite s with isSleeping := state, isEating := false, isPlaying := false }

/-- `set isEating(state)`. -/
def setIsEating (s : AnimalState) (state : Bool) : AnimalState :=
  { incrementWrite s with isSleeping := false, isEating := state, isPlaying := false }

/-- `set isPlaying(state)`. -/
def setIsPlaying (s : AnimalState) (state : Bool) : AnimalState :=
  { incrementWrite s with isSleeping := false, isEating := false, isPlaying := state }

/-- One public operation on an `Inheritance.ts` animal instance.  `walk`,
`swim` and `slither` only print to the console. -/
inductive Op
  | readIsSleeping
  | readIsPlaying
  | readIsEating
  | readIsAlive
  | readNumberOfTimesRead
  | readNumberOfTimesWritten
  | writeIsSleeping (b : Bool)
  | writeIsEating (b : Bool)
  | writeIsPlaying (b : Bool)
  | walk
  | swim
  | slither
deriving DecidableEq

/-- State transition of one operation. -/
def step (s : AnimalState) : Op → AnimalState
  | .readIsSleeping => (getIsSleeping s).2
  | .readIsPlaying => (getIsPlaying s).2
  | .readIsEating => (getIsEating s).2
  | .readIsAlive => (getIsAlive s).2
  | .readNumberOfTimesRead => (getNumberOfTimesRead s).2
  | .readNumberOfTimesWritten => (getNumberOfTimesWritten s).2
  | .writeIsSleeping b => setIsSleeping s b
  | .writeIsEating b => setIsEating s b
  | .writeIsPlaying b => setIsPlaying s b
  | .walk => s
  | .swim => s
  | .slither => s

/-- Run a sequence of operations, in order. -/
def run (s : AnimalState) : List Op → AnimalState
  | [] => s
  | op :: rest => run (step s op) rest

/-- Whether an operation is one of the four flag-getter invocations. -/
def isFlagRead : Op → Bool
  | .readIsSleeping => true
  | .readIsPlaying => true
  | .readIsEating => true
  | .readIsAlive => true
  | _ => false

/-- Whether an operation is a setter invocation. -/
def isFlagWrite : Op → Bool
  | .writeIsSleeping _ => true
  | .writeIsEating _ => true
  | .writeIsPlaying _ => true
  | _ => false

/-- Number of flag-getter invocations in a sequence. -/
def countFlagReads (ops : List Op) : Nat :=
  (ops.filter isFlagRead).length

/-- Number of setter invocations in a sequence. -/
def countFlagWrites (ops : List Op) : Nat :=
  (ops.filter isFlagWrite).length

/-- At most one of the three activity flags is `true`. -/
def atMostOneActive (s : AnimalState) : Prop :=
  (cond s.isSleeping 1 0) + (cond s.isPlaying 1 0) + (cond s.isEating 1 0) ≤ 1

instance (s : AnimalState) : Decidable (atMostOneActive s) := by
  unfold atMostOneActive
  infer_instance

end Inheritance

namespace OpenClosed

/-- The three shape variants of `src/SOLID/Open_Closed.ts`.  Dimensions are
modelled as exact rationals; `Math.PI` is an abstract parameter `pi` of the
area functions, so each result is exact in `pi`. -/
inductive Shape
  | rectangle (width height : ℚ)
  | circle (radius : ℚ)
  | square (edgeLength : ℚ)
deriving DecidableEq

/-- `calculateArea` of the refactored `Shape` implementers: rectangle
`width * height`, circle `radius * Math.PI` (as written in the source),
square `edgeLength * edgeLength`. -/
def calculateArea (pi : ℚ) : Shape → ℚ
  | .rectangle w h => w * h
  | .circle r => r * pi
  | .square e => e * e

/-- The before-refactor `calculateAreaOfShapes` (the second version, lines
51-68, which branches on `instanceof` for all three shapes): a `reduce`
from `0` adding the per-kind area expression inline. -/
def calculateAreaOfShapesBefore (pi : ℚ) (shapes : List Shape) : ℚ :=
  shapes.foldl
    (fun currentTotal shape =>
      match shape with
      | .rectangle w h => currentTotal + w * h
      | .circle r => currentTotal + r * pi
      | .square e => currentTotal + e * e)
    0

/-- The refactored `calculateAreaOfShapes` (lines 117-123): a `reduce` from
`0` adding `shape.calculateArea()`. -/
def calculateAreaOfShapesAfter (pi : ℚ) (shapes : List Shape) : ℚ :=
  shapes.foldl (fun currentTotal shape => currentTotal + calculateArea pi shape) 0

end OpenClosed

namespace Polymorphism

/-- The two logger variants of `src/OOP/Polymorphism.ts`. -/
inductive LoggerKind
  | consoleLogger
  | betterConsoleLogger
deriving DecidableEq

/-- `logToConsole`, dynamically dispatched: the base logger prints the
message unchanged, the override prefixes `BETTER_LOGGER_METHOD `.  The
observable console line is returned as a string. -/
def logToConsole : LoggerKind → String → String
  | .consoleLogger, message => message
  | .betterConsoleLogger, message => "BETTER_LOGGER_METHOD " ++ message

/-- `LoggerConsumer`: holds the injected logger. -/
structure LoggerConsumer where
  logger : LoggerKind
deriving DecidableEq

/-- `LoggerConsumer.log`: forwards to the injected logger, with no branching
on the provider identity. -/
def LoggerConsumer.log (c : LoggerConsumer) (message : String) : String :=
  logToConsole c.logger message

end Polymorphism

namespace DependencyInversion

/-- The two `IntroductionService` implementations of
`src/SOLID/DependencyInversionPrinciple.ts` (refactored block). -/
inductive ServiceKind
  | engineerIntroductionService
  | musicianIntroductionService
deriving DecidableEq

/-- `introduce`: the observable console line of each service. -/
def introduce : ServiceKind → String
  | .engineerIntroductionService => "I am an engineer"
  | .musicianIntroductionService => "I am a musician"

/-- `Person`: holds the injected `IntroductionService`. -/
structure Person where
  introductionService : ServiceKind
deriving DecidableEq

/-- `Person.introduceSelf`: forwards to the injected service, with no
branching on the provider identity. -/
def Person.introduceSelf (p : Person) : String :=
  introduce p.introductionService

end DependencyInversion

namespace Abstraction

/-- The `cups: 1 | 2` argument type of `CoffeeMachine.MakeCoffee`. -/
inductive Cups
  | one
  | two
deriving DecidableEq

/-- The numeric value interpolated into the start message. -/
def Cups.count : Cups → Nat
  | .one => 1
  | .two => 2

/-- One observable step of the coffee machine: a console log or an awaited
`setTimeout` of the given number of milliseconds. -/
inductive Event
  | log (message : String)
  | awaitTimeout (ms : Nat)
deriving DecidableEq

/-- `_brewingSteps` of the refactored `CoffeeMachine`, in array order. -/
def brewingSteps : List String :=
  ["Heating element",
   "Pumping water",
   "Pre-infusion",
   "Increasing pumping pressure",
   "Turning off pump and heating element"]

/-- `_brewCoffeeInternal` of the first `CoffeeMachine` version: five
iterations, each logging `Brewing...` and awaiting a 1000 ms timer.  The
`for ... in [...Array(5).keys()]` loop visits indices 0..4 in order. -/
def brewCoffeeInternalFirst : List Event :=
  (List.range 5).foldl
    (fun events _ => events ++ [Event.log "Brewing...", Event.awaitTimeout 1000])
    []

/-- `_brewCoffeeInternal` of the refactored `CoffeeMachine`: five
iterations, each logging `_brewingSteps[iteration]` and awaiting a 1000 ms
timer. -/
def brewCoffeeInternal : List Event :=
  (List.range 5).foldl
    (fun events iteration =>
      events ++ [Event.log (brewingSteps.getD iteration ""), Event.awaitTimeout 1000])
    []

/-- `MakeCoffee` of the first version: start log, internal brew, finish
log. -/
def makeCoffeeFirst (cups : Cups) : List Event :=
  Event.log ("Starting to make coffee using " ++ toString cups.count ++ " cups")
    :: brewCoffeeInternalFirst
    ++ [Event.log "Coffee has finished brewing"]

/-- `MakeCoffee` of the refactored version: start log, internal brew,
finish log. -/
def makeCoffee (cups : Cups) : List Event :=
  Event.log ("Starting to make coffee using " ++ toString cups.count ++ " cups")
    :: brewCoffeeInternal
    ++ [Event.log "Coffee has finished brewing"]

/-- Whether an event is an awaited timer. -/
def Event.isAwait : Event → Bool
  | .awaitTimeout _ => true
  | .log _ => false

end Abstraction

namespace InterfaceSegregation

/-- `Tui.fly` of the `Bird` version: empty body, returns normally. -/
def birdTuiFly : Except String Unit := .ok ()

/-- `Tui.walk` of the `Bird` version: empty body, returns normally. -/
def birdTuiWalk : Except String Unit := .ok ()

/-- `Kiwi.fly` of the `Bird` version: always throws. -/
def birdKiwiFly : Except String Unit :=
  .error "Unfortunately, Kiwi can not fly!"

/-- `Kiwi.walk` of the `Bird` version: empty body, returns normally. -/
def birdKiwiWalk : Except String Unit := .ok ()

/-- The `CanWalk` role interface of the refactored example. -/
structure CanWalk where
  walk : Except String Unit

/-- The `CanFly` role interface of the refactored example. -/
structure CanFly where
  fly : Except String Unit

/-- The refactored `Tui implements CanWalk, CanFly`:
both method bodies are empty and return normally. -/
def tuiRefactored : CanWalk × CanFly :=
  ({ walk := .ok () }, { fly := .ok () })

/-- The refactored `Kiwi implements CanWalk`: its only method, `walk`, has
an empty body and returns normally. -/
def kiwiRefactored : CanWalk :=
  { walk := .ok () }

/-- The two role capabilities of the refactored example. -/
inductive Capability
  | canWalk
  | canFly
deriving DecidableEq

/-- The interfaces named in `class Kiwi implements CanWalk` (refactored). -/
def kiwiImplements : List Capability := [Capability.canWalk]

/-- The interfaces named in `class Tui implements CanWalk, CanFly`
(refactored). -/
def tuiImplements : List Capability := [Capability.canWalk, Capability.canFly]

/-- A consumer requiring only the narrow `CanWalk` contract. -/
def useWalker (w : CanWalk) : Except String Unit :=
  w.walk

end InterfaceSegregation

namespace Corpus

/-- Every public operation of every example in the repository, one
constructor per public method per class (the `before` and refactored
versions of a class counted separately). -/
inductive PublicOperation
  | encapGetIsSleeping
  | encapGetIsPlaying
  | encapGetIsEating
  | encapSetIsSleeping
  | encapSetIsEating
  | encapSetIsPlaying
  | encapGetAnimalName
  | encapGetCall
  | polyConsoleLoggerLogToConsole
  | polyBetterConsoleLoggerLogToConsole
  | polyLoggerConsumerLog
  | inherGetNumberOfTimesRead
  | inherGetNumberOfTimesWritten
  | inherGetIsSleeping
  | inherGetIsPlaying
  | inherGetIsEating
  | inherGetIsAlive
  | inherSetIsSleeping
  | inherSetIsEating
  | inherSetIsPlaying
  | inherGetAnimalName
  | inherGetCall
  | inherDogWalk
  | inherWhaleSwim
  | inherSnakeSlither
  | srpTransformDataBefore
  | srpGenerateDataReportBefore
  | srpTransformDataAfter
  | srpGenerateDataReportAfter
  | ocCalculateAreaOfShapesFirst
  | ocCalculateAreaOfShapesWithSquare
  | ocRectangleCalculateArea
  | ocCircleCalculateArea
  | ocSquareCalculateArea
  | ocCalculateAreaOfShapesRefactored
  | isBirdTuiFly
  | isBirdTuiWalk
  | isBirdKiwiFly
  | isBirdKiwiWalk
  | isTuiFlyRefactored
  | isTuiWalkRefactored
  | isKiwiWalkRefactored
  | dipEngineerServiceIntroduce
  | dipMusicianServiceIntroduce
  | dipEngineerIntroduceSelf
  | dipMusicianIntroduceSelf
  | dipPersonIntroduceSelf
  | absMakeCoffeeFirst
  | absMakeCoffeeRefactored
deriving DecidableEq

/-- Whether an `Except` result is a thrown error. -/
def raisesError : Except String Unit → Bool
  | .error _ => true
  | .ok _ => false

/-- Whether invoking the operation can signal an error to the caller.  The
four bird methods of the `Bird`-interface example and the three refactored
role-interface methods are the only operations whose bodies are `throw` or
an empty stub in the source; every other method body is a plain field
access, assignment, arithmetic expression, console log, or timer, none of
which throws. -/
def signalsError : PublicOperation → Bool
  | .isBirdTuiFly => raisesError InterfaceSegregation.birdTuiFly
  | .isBirdTuiWalk => raisesError InterfaceSegregation.birdTuiWalk
  | .isBirdKiwiFly => raisesError InterfaceSegregation.birdKiwiFly
  | .isBirdKiwiWalk => raisesError InterfaceSegregation.birdKiwiWalk
  | .isTuiFlyRefactored => raisesError (InterfaceSegregation.tuiRefactored.2.fly)
  | .isTuiWalkRefactored => raisesError (InterfaceSegregation.tuiRefactored.1.walk)
  | .isKiwiWalkRefactored => raisesError InterfaceSegregation.kiwiRefactored.walk
  | _ => false

end Corpus

/-!
Theorems.
-/

/-- Claim C1: for every animal variant (Dog, Whale, Snake, in both the
Encapsulation and Inheritance examples) and in every state, assigning
`true` to any one of the three activity setters (`isSleeping`, `isEating`,
`isPlaying`) leaves that flag `true` and sets the other two flags to
`false`.  The setter logic lives in the shared abstract `Animal` base, so
it is the same for every variant `k`. -/
theorem C1_setter_true_exclusive
    (_k : Encapsulation.AnimalKind) (_k2 : Inheritance.AnimalKind)
    (s : Encapsulation.AnimalState) (t : Inheritance.AnimalState) :
    ((Encapsulation.setIsSleeping s true).isSleeping = true ∧
      (Encapsulation.setIsSleeping s true).isEating = false ∧
      (Encapsulation.setIsSleeping s true).isPlaying = false) ∧
    ((Encapsulation.setIsEating s true).isEating = true ∧
      (Encapsulation.setIsEating s true).isSleeping = false ∧
      (Encapsulation.setIsEating s true).isPlaying = false) ∧
    ((Encapsulation.setIsPlaying s true).isPlaying = true ∧
      (Encapsulation.setIsPlaying s true).isSleeping = false ∧
      (Encapsulation.setIsPlaying s true).isEating = false) ∧
    ((Inheritance.setIsSleeping t true).isSleeping = true ∧
      (Inheritance.setIsSleeping t true).isEating = false ∧
      (Inheritance.setIsSleeping t true).isPlaying = false) ∧
    ((Inheritance.setIsEating t true).isEating = true ∧
      (Inheritance.setIsEating t true).isSleeping = false ∧
      (Inheritance.setIsEating t true).isPlaying = false) ∧
    ((Inheritance.setIsPlaying t true).isPlaying = true ∧
      (Inheritance.setIsPlaying t true).isSleeping = false ∧
      (Inheritance.setIsPlaying t true).isEating = false) :=
  ⟨⟨rfl, rfl, rfl⟩, ⟨rfl, rfl, rfl⟩, ⟨rfl, rfl, rfl⟩,
   ⟨rfl, rfl, rfl⟩, ⟨rfl, rfl, rfl⟩, ⟨rfl, rfl, rfl⟩⟩

/-- Claim C2 counterexample: the spec's concrete scenario itself refutes
the frame claim.  Start a fresh Encapsulation animal, set `isEating = true`
(so `isEating` holds), then assign `false` to the unrelated setter
`isSleeping`: the `isEating` flag is flipped to `false`, not left
unchanged, because every setter body unconditionally clears the other two
fields. -/
theorem C2_counterexample :
    (Encapsulation.setIsEating Encapsulation.initialAnimal true).isEating = true ∧
    (Encapsulation.setIsSleeping
      (Encapsulation.setIsEating Encapsulation.initialAnimal true) false).isEating = false := by
  decide

/-- Claim C2 amended: assigning `false` to any one activity setter sets all
three activity flags to `false` — the targeted flag receives `false` and
the other two are cleared as well, so a `true` unrelated flag is flipped,
not left unchanged.  In the Encapsulation model the resulting flag state is
exactly the freshly-constructed one; in the Inheritance model the three
flags are all `false` (the write counter still increments). -/
theorem C2_amended_setter_false_clears_all
    (s : Encapsulation.AnimalState) (t : Inheritance.AnimalState) :
    Encapsulation.setIsSleeping s false = Encapsulation.initialAnimal ∧
    Encapsulation.setIsEating s false = Encapsulation.initialAnimal ∧
    Encapsulation.setIsPlaying s false = Encapsulation.initialAnimal ∧
    ((Inheritance.setIsSleeping t false).isSleeping = false ∧
      (Inheritance.setIsSleeping t false).isEating = false ∧
      (Inheritance.setIsSleeping t false).isPlaying = false) ∧
    ((Inheritance.setIsEating t false).isSleeping = false ∧
      (Inheritance.setIsEating t false).isEating = false ∧
      (Inheritance.setIsEating t false).isPlaying = false) ∧
    ((Inheritance.setIsPlaying t false).isSleeping = false ∧
      (Inheritance.setIsPlaying t false).isEating = false ∧
      (Inheritance.setIsPlaying t false).isPlaying = false) :=
  ⟨rfl, rfl, rfl, ⟨rfl, rfl, rfl⟩, ⟨rfl, rfl, rfl⟩, ⟨rfl, rfl, rfl⟩⟩

/-- Claim C3: `calculateArea` is a pure function of the stored dimensions
(it is a plain function of the shape value in this embedding, with no state
and no cache): rectangle `width * height`, circle `radius * pi` (the
source multiplies the radius by `Math.PI`, not the squared radius), square
`edgeLength * edgeLength`; in particular a 3-by-4 rectangle has area 12 and
a circle of radius 2 has area `2 * pi`. -/
theorem C3_calculateArea_pure_formulas (pi w h r e : ℚ) :
    OpenClosed.calculateArea pi (OpenClosed.Shape.rectangle w h) = w * h ∧
    OpenClosed.calculateArea pi (OpenClosed.Shape.circle r) = r * pi ∧
    OpenClosed.calculateArea pi (OpenClosed.Shape.square e) = e * e ∧
    OpenClosed.calculateArea pi (OpenClosed.Shape.rectangle 3 4) = 12 ∧
    OpenClosed.calculateArea pi (OpenClosed.Shape.circle 2) = 2 * pi := by
  refine ⟨rfl, rfl, rfl, by norm_num [OpenClosed.calculateArea], rfl⟩

/-- Claim C4: a consumer's observable output is exactly what its injected
provider produces, for every message: `LoggerConsumer` with the base
`ConsoleLogger` outputs the message unchanged, with `BetterConsoleLogger`
it outputs the prefixed message; `Person` outputs the introduction line of
whichever `IntroductionService` was injected.  The consumer code path
(`LoggerConsumer.log`, `Person.introduceSelf`) is one definition applied
unchanged to both providers. -/
theorem C4_provider_substitution (m : String) :
    Polymorphism.LoggerConsumer.log ⟨Polymorphism.LoggerKind.consoleLogger⟩ m = m ∧
    Polymorphism.LoggerConsumer.log ⟨Polymorphism.LoggerKind.betterConsoleLogger⟩ m =
      "BETTER_LOGGER_METHOD " ++ m ∧
    DependencyInversion.Person.introduceSelf
      ⟨DependencyInversion.ServiceKind.engineerIntroductionService⟩ = "I am an engineer" ∧
    DependencyInversion.Person.introduceSelf
      ⟨DependencyInversion.ServiceKind.musicianIntroductionService⟩ = "I am a musician" :=
  ⟨rfl, rfl, rfl, rfl⟩

/-- Claim C5: `MakeCoffee(cups)` logs the start message, then the internal
brewing loop performs exactly five iterations in sequence, each logging one
brewing step (in the refactored version, the five named `_brewingSteps` in
array order; in the first version, `Brewing...`) and awaiting a fixed
1000 ms timer, and then logs the finished message.  The full event traces
are given explicitly, so the step count (five) and the ordering are both
pinned down. -/
theorem C5_makeCoffee_trace (cups : Abstraction.Cups) :
    Abstraction.makeCoffee cups =
      [Abstraction.Event.log
         ("Starting to make coffee using " ++ toString cups.count ++ " cups"),
       Abstraction.Event.log "Heating element", Abstraction.Event.awaitTimeout 1000,
       Abstraction.Event.log "Pumping water", Abstraction.Event.awaitTimeout 1000,
       Abstraction.Event.log "Pre-infusion", Abstraction.Event.awaitTimeout 1000,
       Abstraction.Event.log "Increasing pumping pressure", Abstraction.Event.awaitTimeout 1000,
       Abstraction.Event.log "Turning off pump and heating element",
       Abstraction.Event.awaitTimeout 1000,
       Abstraction.Event.log "Coffee has finished brewing"] ∧
    Abstraction.makeCoffeeFirst cups =
      [Abstraction.Event.log
         ("Starting to make coffee using " ++ toString cups.count ++ " cups"),
       Abstraction.Event.log "Brewing...", Abstraction.Event.awaitTimeout 1000,
       Abstraction.Event.log "Brewing...", Abstraction.Event.awaitTimeout 1000,
       Abstraction.Event.log "Brewing...", Abstraction.Event.awaitTimeout 1000,
       Abstraction.Event.log "Brewing...", Abstraction.Event.awaitTimeout 1000,
       Abstraction.Event.log "Brewing...", Abstraction.Event.awaitTimeout 1000,
       Abstraction.Event.log "Coffee has finished brewing"] ∧
    (Abstraction.brewCoffeeInternal.filter Abstraction.Event.isAwait).length = 5 ∧
    (Abstraction.brewCoffeeInternalFirst.filter Abstraction.Event.isAwait).length = 5 ∧
    Abstraction.brewingSteps.length = 5 :=
  ⟨rfl, rfl, rfl, rfl, rfl⟩

/-- Claim C6: `fly` on the `Bird`-interface `Kiwi` signals an error to the
caller (on every invocation: the method body is a single unconditional
`throw`, modelled as a constant erroring result), and among all public
operations of every example in the corpus it is the only one that signals
an error. -/
theorem C6_kiwi_fly_only_error (op : Corpus.PublicOperation) :
    Corpus.raisesError InterfaceSegregation.birdKiwiFly = true ∧
    InterfaceSegregation.birdKiwiFly =
      Except.error "Unfortunately, Kiwi can not fly!" ∧
    (Corpus.signalsError op = true ↔ op = Corpus.PublicOperation.isBirdKiwiFly) := by
  refine ⟨rfl, rfl, ?_⟩
  cases op <;>
    simp [Corpus.signalsError, Corpus.raisesError,
      InterfaceSegregation.birdTuiFly, InterfaceSegregation.birdTuiWalk,
      InterfaceSegregation.birdKiwiFly, InterfaceSegregation.birdKiwiWalk,
      InterfaceSegregation.tuiRefactored, InterfaceSegregation.kiwiRefactored]

/-- Helper for C7: the two `reduce` bodies agree from any accumulator. -/
theorem OpenClosed.foldl_area_eq (pi : ℚ) (shapes : List OpenClosed.Shape) :
    ∀ init : ℚ,
      shapes.foldl
        (fun currentTotal shape =>
          match shape with
          | OpenClosed.Shape.rectangle w h => currentTotal + w * h
          | OpenClosed.Shape.circle r => currentTotal + r * pi
          | OpenClosed.Shape.square e => currentTotal + e * e)
        init =
      shapes.foldl
        (fun currentTotal shape => currentTotal + OpenClosed.calculateArea pi shape)
        init := by
  induction shapes with
  | nil => intro init; rfl
  | cons shape rest ih =>
    intro init
    cases shape <;> simpa only [List.foldl_cons] using ih _

/-- Claim C7: for every list of rectangle, circle and square values, the
before-refactor `calculateAreaOfShapes` (branching on the concrete shape
kind) and the after-refactor `calculateAreaOfShapes` (summing
`shape.calculateArea()`) return the same total area. -/
theorem C7_before_after_same_total (pi : ℚ) (shapes : List OpenClosed.Shape) :
    OpenClosed.calculateAreaOfShapesBefore pi shapes =
      OpenClosed.calculateAreaOfShapesAfter pi shapes :=
  OpenClosed.foldl_area_eq pi shapes 0

/-- Claim C8: the refactored `Kiwi` implements only the `CanWalk`
capability: it is usable anywhere the narrower `CanWalk` contract is
required (a consumer of `CanWalk` invoking its `walk` succeeds without
error), and the list of interfaces it implements contains `CanWalk` but not
the `CanFly` capability it lacks. -/
theorem C8_kiwi_refactored_narrow_interface :
    InterfaceSegregation.useWalker InterfaceSegregation.kiwiRefactored = Except.ok () ∧
    InterfaceSegregation.kiwiRefactored.walk = Except.ok () ∧
    Corpus.raisesError InterfaceSegregation.kiwiRefactored.walk = false ∧
    InterfaceSegregation.Capability.canWalk ∈ InterfaceSegregation.kiwiImplements ∧
    InterfaceSegregation.Capability.canFly ∉ InterfaceSegregation.kiwiImplements := by
  refine ⟨rfl, rfl, rfl, ?_, ?_⟩ <;> decide

/-- Helper for C9: every Encapsulation setter invocation yields a state
with at most one active flag, whatever the previous state. -/
theorem Encapsulation.applySetter_atMostOne
    (s : Encapsulation.AnimalState) (c : Encapsulation.SetterCall) :
    Encapsulation.atMostOneActive (Encapsulation.applySetter s c) := by
  cases c <;> rename_i b <;> cases b <;>
    simp [Encapsulation.applySetter, Encapsulation.setIsSleeping,
      Encapsulation.setIsEating, Encapsulation.setIsPlaying,
      Encapsulation.atMostOneActive]

/-- Helper for C9: running any setter sequence from a state with at most
one active flag ends in a state with at most one active flag. -/
theorem Encapsulation.runSetters_atMostOne (ops : List Encapsulation.SetterCall) :
    ∀ s : Encapsulation.AnimalState,
      Encapsulation.atMostOneActive s →
        Encapsulation.atMostOneActive (Encapsulation.runSetters s ops) := by
  induction ops with
  | nil => intro s h; exact h
  | cons c rest ih => intro s _; exact ih _ (Encapsulation.applySetter_atMostOne s c)

/-- Helper for C9: every Inheritance setter invocation yields a state with
at most one active flag, whatever the previous state. -/
theorem Inheritance.setter_atMostOne (t : Inheritance.AnimalState) (b : Bool) :
    Inheritance.atMostOneActive (Inheritance.setIsSleeping t b) ∧
    Inheritance.atMostOneActive (Inheritance.setIsEating t b) ∧
    Inheritance.atMostOneActive (Inheritance.setIsPlaying t b) := by
  cases b <;> refine ⟨?_, ?_, ?_⟩ <;>
    simp [Inheritance.setIsSleeping, Inheritance.setIsEating,
      Inheritance.setIsPlaying, Inheritance.incrementWrite,
      Inheritance.atMostOneActive]

/-- Helper for C9: every Inheritance operation preserves the at-most-one
invariant (getters leave the flags untouched, setters re-establish it). -/
theorem Inheritance.step_atMostOne
    (s : Inheritance.AnimalState) (op : Inheritance.Op)
    (h : Inheritance.atMostOneActive s) :
    Inheritance.atMostOneActive (Inheritance.step s op) := by
  cases op with
  | writeIsSleeping b => exact (Inheritance.setter_atMostOne s b).1
  | writeIsEating b => exact (Inheritance.setter_atMostOne s b).2.1
  | writeIsPlaying b => exact (Inheritance.setter_atMostOne s b).2.2
  | _ => exact h

/-- Helper for C9: running any operation sequence from a state with at
most one active flag ends in a state with at most one active flag. -/
theorem Inheritance.run_atMostOne (ops : List Inheritance.Op) :
    ∀ s : Inheritance.AnimalState,
      Inheritance.atMostOneActive s →
        Inheritance.atMostOneActive (Inheritance.run s ops) := by
  induction ops with
  | nil => intro s h; exact h
  | cons op rest ih => intro s h; exact ih _ (Inheritance.step_atMostOne s op h)

/-- Claim C9: in both animal examples, every reachable `Animal` state has
at most one of the three activity flags `true`: the constructor
initializes all three flags to `false`, every setter invocation yields a
state with at most one `true` flag (from any state at all), and every
state reached from the constructor by a sequence of public operations
satisfies the invariant. -/
theorem C9_reachable_at_most_one_active :
    Encapsulation.atMostOneActive Encapsulation.initialAnimal ∧
    (∀ (s : Encapsulation.AnimalState) (c : Encapsulation.SetterCall),
      Encapsulation.atMostOneActive (Encapsulation.applySetter s c)) ∧
    (∀ ops : List Encapsulation.SetterCall,
      Encapsulation.atMostOneActive
        (Encapsulation.runSetters Encapsulation.initialAnimal ops)) ∧
    Inheritance.atMostOneActive Inheritance.initialAnimal ∧
    (∀ (t : Inheritance.AnimalState) (b : Bool),
      Inheritance.atMostOneActive (Inheritance.setIsSleeping t b) ∧
      Inheritance.atMostOneActive (Inheritance.setIsEating t b) ∧
      Inheritance.atMostOneActive (Inheritance.setIsPlaying t b)) ∧
    (∀ ops : List Inheritance.Op,
      Inheritance.atMostOneActive
        (Inheritance.run Inheritance.initialAnimal ops)) := by
  exact ⟨by decide,
    fun s c => Encapsulation.applySetter_atMostOne s c,
    fun ops => Encapsulation.runSetters_atMostOne ops _ (by decide),
    by decide,
    fun t b => Inheritance.setter_atMostOne t b,
    fun ops => Inheritance.run_atMostOne ops _ (by decide)⟩

/-- Helper for C10: one operation adds one to the read counter exactly
when it is a flag-getter invocation. -/
theorem Inheritance.step_read_count
    (s : Inheritance.AnimalState) (op : Inheritance.Op) :
    (Inheritance.step s op).numberOfTimesRead =
      s.numberOfTimesRead + cond (Inheritance.isFlagRead op) 1 0 := by
  cases op <;> rfl

/-- Helper for C10: one operation adds one to the write counter exactly
when it is a setter invocation. -/
theorem Inheritance.step_write_count
    (s : Inheritance.AnimalState) (op : Inheritance.Op) :
    (Inheritance.step s op).numberOfTimesWritten =
      s.numberOfTimesWritten + cond (Inheritance.isFlagWrite op) 1 0 := by
  cases op <;> rfl

/-- Helper for C10: unfolding the flag-read count over a cons. -/
theorem Inheritance.countFlagReads_cons (op : Inheritance.Op) (rest : List Inheritance.Op) :
    Inheritance.countFlagReads (op :: rest) =
      cond (Inheritance.isFlagRead op) 1 0 + Inheritance.countFlagReads rest := by
  unfold Inheritance.countFlagReads
  cases h : Inheritance.isFlagRead op <;> simp [List.filter_cons, h, Nat.add_comm]

/-- Helper for C10: unfolding the write count over a cons. -/
theorem Inheritance.countFlagWrites_cons (op : Inheritance.Op) (rest : List Inheritance.Op) :
    Inheritance.countFlagWrites (op :: rest) =
      cond (Inheritance.isFlagWrite op) 1 0 + Inheritance.countFlagWrites rest := by
  unfold Inheritance.countFlagWrites
  cases h : Inheritance.isFlagWrite op <;> simp [List.filter_cons, h, Nat.add_comm]

/-- Helper for C10: the read counter after a run is its initial value plus
the number of flag-getter invocations in the sequence. -/
theorem Inheritance.run_read_count (ops : List Inheritance.Op) :
    ∀ s : Inheritance.AnimalState,
      (Inheritance.run s ops).numberOfTimesRead =
        s.numberOfTimesRead + Inheritance.countFlagReads ops := by
  induction ops with
  | nil => intro s; rfl
  | cons op rest ih =>
    intro s
    have h1 := ih (Inheritance.step s op)
    have h2 : Inheritance.run s (op :: rest) = Inheritance.run (Inheritance.step s op) rest := rfl
    rw [h2, h1, Inheritance.step_read_count, Inheritance.countFlagReads_cons]
    omega

/-- Helper for C10: the write counter after a run is its initial value
plus the number of setter invocations in the sequence. -/
theorem Inheritance.run_write_count (ops : List Inheritance.Op) :
    ∀ s : Inheritance.AnimalState,
      (Inheritance.run s ops).numberOfTimesWritten =
        s.numberOfTimesWritten + Inheritance.countFlagWrites ops := by
  induction ops with
  | nil => intro s; rfl
  | cons op rest ih =>
    intro s
    have h1 := ih (Inheritance.step s op)
    have h2 : Inheritance.run s (op :: rest) = Inheritance.run (Inheritance.step s op) rest := rfl
    rw [h2, h1, Inheritance.step_write_count, Inheritance.countFlagWrites_cons]
    omega

/-- Claim C10: a freshly constructed Inheritance animal has both audit
counters equal to 0; after any sequence of public operations
`numberOfTimesRead` equals the number of flag-getter invocations
(`isSleeping`, `isPlaying`, `isEating`, `isAlive`) and
`numberOfTimesWritten` equals the number of setter invocations in the
sequence; and reading either counter changes neither counter nor any
flag (it is the identity on the state) and returns the stored counter. -/
theorem C10_audit_counters (ops : List Inheritance.Op) (t : Inheritance.AnimalState) :
    Inheritance.initialAnimal.numberOfTimesRead = 0 ∧
    Inheritance.initialAnimal.numberOfTimesWritten = 0 ∧
    (Inheritance.run Inheritance.initialAnimal ops).numberOfTimesRead =
      Inheritance.countFlagReads ops ∧
    (Inheritance.run Inheritance.initialAnimal ops).numberOfTimesWritten =
      Inheritance.countFlagWrites ops ∧
    Inheritance.step t Inheritance.Op.readNumberOfTimesRead = t ∧
    Inheritance.step t Inheritance.Op.readNumberOfTimesWritten = t ∧
    (Inheritance.getNumberOfTimesRead t).1 = t.numberOfTimesRead ∧
    (Inheritance.getNumberOfTimesWritten t).1 = t.numberOfTimesWritten := by
  refine ⟨rfl, rfl, ?_, ?_, rfl, rfl, rfl, rfl⟩
  · simpa [Inheritance.initialAnimal] using
      Inheritance.run_read_count ops Inheritance.initialAnimal
  · simpa [Inheritance.initialAnimal] using
      Inheritance.run_write_count ops Inheritance.initialAnimal
